import Mathlib

/-!
Verification development for the c2pa-c FFI bridge.

We give a shallow embedding of the boundary layer (`src/c_api.rs`,
`src/c_stream.rs`, `src/c_signer.rs`, `src/signer.rs`, `src/error.rs`).
The manifest engine (the external `c2pa` crate) is a black box: every call
into it is modelled by an oracle parameter carrying the engine's result.
Foreign callbacks are modelled by their observable behaviour (the value they
return and, for signing callbacks, the buffer contents they leave behind).
Raw-pointer ownership is made explicit: a heap box reclaimed by an entry
point with `Box::from_raw` either is re-leaked with `Box::into_raw`
(the handle is restored for the caller) or goes out of scope and is
dropped (the object is freed).  Machine-integer casts (`as u64`,
`as c_int`) are modelled on `Nat`/`Int` with explicit wrapping.
-/

namespace C2paC

/-- Errors of the external `c2pa` SDK, as far as the bridge inspects or
produces them: `CoseSignature` is produced by both signing callback
adapters; `BadParam` and `OtherError` are produced by `C2paSigner.configure`;
every other engine error is collapsed into `other` with its display text. -/
inductive C2paError where
  | coseSignature
  | badParam (msg : String)
  | otherError (msg : String)
  | other (msg : String)
deriving DecidableEq, Repr

/-- Display text of an engine error (the engine's `Display` is a black box;
only its determinism matters to the bridge, so constructors carry their
text). -/
def C2paError.message : C2paError → String
  | .coseSignature => "COSE Signature Error"
  | .badParam m => m
  | .otherError m => m
  | .other m => m

/-- `Error` from `src/error.rs`: the bridge's own error type. -/
inductive Error where
  | nullParameter (param : String)
  | json (msg : String)
  | sdk (e : C2paError)
deriving DecidableEq, Repr

/-- Display text per the `thiserror` attributes in `src/error.rs`:
`NullParameter` formats as "Unexpected NULL parameter {0}", the other two
variants are transparent. -/
def Error.message : Error → String
  | .nullParameter p => "Unexpected NULL parameter " ++ p
  | .json m => m
  | .sdk e => e.message

/-- The thread-local `LAST_ERROR` slot of `src/error.rs`, threaded
explicitly: `None` when no error is pending. -/
abbrev ErrorSlot := Option Error

/-- `Error::set_last` from `src/error.rs`: stores the error in the calling
thread's slot, overwriting any prior value. -/
def Error.set_last (e : Error) (_slot : ErrorSlot) : ErrorSlot := some e

/-- `Error::last_message` from `src/error.rs`: maps the current slot value
to its display text without modifying the slot. -/
def Error.last_message (slot : ErrorSlot) : Option String :=
  slot.map Error.message

/-- `to_c_string` from `src/c_api.rs`: `CString::new` fails (and the helper
returns a null pointer, modelled as `none`) exactly when the string contains
a NUL byte; otherwise ownership of the C string is handed to the caller. -/
def to_c_string (s : String) : Option String :=
  if s.data.contains (Char.ofNat 0) then none else some s

/-- `c2pa_version` from `src/c_api.rs`: formats four compile-time constants
(crate name/version and SDK name/version) as "{}/{} {}/{}".  The constants
are parameters of the model; the error slot is threaded to show the call
does not touch it. -/
def c2pa_version (pkgName pkgVersion sdkName sdkVersion : String)
    (slot : ErrorSlot) : Option String × ErrorSlot :=
  (to_c_string (pkgName ++ "/" ++ pkgVersion ++ " " ++ sdkName ++ "/" ++ sdkVersion),
   slot)

/-- `c2pa_error` from `src/c_api.rs`: returns
`to_c_string(Error::last_message().unwrap_or_default())`; the slot is only
read. -/
def c2pa_error (slot : ErrorSlot) : Option String × ErrorSlot :=
  (to_c_string ((Error.last_message slot).getD ""), slot)

/-- The `std::io::Error::last_os_error()` value used by `CStream` for every
callback failure; the bridge never produces any other I/O error. -/
inductive IoError where
  | lastOsError
deriving DecidableEq, Repr

/-- `std::io::SeekFrom`: `Start` carries a `u64` (a `Nat`, understood mod
2^64), `Current` and `End` carry an `i64`. -/
inductive SeekFrom where
  | start (pos : Nat)
  | current (pos : Int)
  | fromEnd (pos : Int)
deriving DecidableEq, Repr

/-- The Rust cast `u64 as i64`: reinterpret mod 2^64 into the signed range. -/
def i64_of_u64 (n : Nat) : Int :=
  if n % 2 ^ 64 < 2 ^ 63 then ((n % 2 ^ 64 : Nat) : Int)
  else ((n % 2 ^ 64 : Nat) : Int) - 2 ^ 64

/-- The Rust cast `as u64` applied to a signed value: wrap mod 2^64. -/
def u64_of_int (v : Int) : Nat := (v % 2 ^ 64).toNat

/-- The Rust cast `usize as c_int`: wrap mod 2^32 into the signed range. -/
def i32_of_nat (n : Nat) : Int :=
  if n % 2 ^ 32 < 2 ^ 31 then ((n % 2 ^ 32 : Nat) : Int)
  else ((n % 2 ^ 32 : Nat) : Int) - 2 ^ 32

/-- `impl Read for CStream` (`src/c_stream.rs`): the read callback receives
the stream context and a buffer of size `buf.len()`; it is modelled by the
`isize` it returns for a given buffer length.  A negative return maps to
`std::io::Error::last_os_error()`; otherwise the count is returned as-is
(`bytes_read as usize`), with no comparison against the buffer length. -/
def CStream.read (reader : Nat → Int) (bufLen : Nat) : Except IoError Nat :=
  let bytes_read := reader bufLen
  if bytes_read < 0 then .error .lastOsError
  else .ok bytes_read.toNat

/-- `impl Seek for CStream` (`src/c_stream.rs`): the seek request is turned
into a `(signed offset, mode)` pair with mode 1 for `Current`, 0 for `Start`
(offset cast `u64 as i64`), 2 for `End`; the callback's return value is cast
`as u64` and returned inside `Ok` unconditionally. -/
def CStream.seek (seeker : Int → Int → Int) (origin : SeekFrom) :
    Except IoError Nat :=
  let pm : Int × Int :=
    match origin with
    | .current pos => (pos, 1)
    | .start pos => (i64_of_u64 pos, 0)
    | .fromEnd pos => (pos, 2)
  .ok (u64_of_int (seeker pm.1 pm.2))

/-- `impl Write for CStream`, `write` (`src/c_stream.rs`): the write
callback is modelled by the `isize` it returns for a given buffer; negative
maps to an I/O error, otherwise `Ok(bytes_written as usize)` with no
re-validation. -/
def CStream.write (writer : List Nat → Int) (buf : List Nat) :
    Except IoError Nat :=
  let bytes_written := writer buf
  if bytes_written < 0 then .error .lastOsError
  else .ok bytes_written.toNat

/-- `impl Write for CStream`, `flush` (`src/c_stream.rs`): the flush
callback is modelled by the `isize` it returns; negative maps to an I/O
error, otherwise `Ok(())`. -/
def CStream.flush (flusher : Unit → Int) : Except IoError Unit :=
  let err := flusher ()
  if err < 0 then .error .lastOsError
  else .ok ()

/-- `impl SignerCallback for CSigner` (`src/c_signer.rs`): the C callback is
modelled by its observable behaviour — given the data and the capacity of
the preallocated signature buffer it returns the status `isize` together
with the buffer contents after the call (the buffer starts as
`vec![0; 100000]` and is mutated in place, so its length stays the
capacity).  A negative status yields `Err(c2pa::Error::CoseSignature)`;
otherwise `signature.truncate(result as usize)` keeps the first
`result` bytes. -/
def CSigner.sign (signer : List Nat → Nat → Int × List Nat)
    (data : List Nat) : Except C2paError (List Nat) :=
  let sig_max_size := 100000
  let rb := signer data sig_max_size
  if rb.1 < 0 then .error .coseSignature
  else .ok (rb.2.take rb.1.toNat)

/-- The closure built inside `c2pa_signer_create` (`src/c_api.rs`): the
output buffer is `vec![0; data.len() * 2]`; a negative callback return
yields `Err(c2pa::Error::CoseSignature)`, otherwise
`signed_bytes.set_len(signed_size)` keeps the first `signed_size` bytes
(defined, per Rust's contract, only when the callback returned at most the
capacity). -/
def c2pa_signer_create_callback (callback : List Nat → Nat → Int × List Nat)
    (data : List Nat) : Except C2paError (List Nat) :=
  let signed_len_max := data.length * 2
  let rb := callback data signed_len_max
  if rb.1 < 0 then .error .coseSignature
  else .ok (rb.2.take rb.1.toNat)

/-- `SigningAlg` of the external SDK (only its identity matters here). -/
inductive SigningAlg where
  | es256 | es384 | es512 | ps256 | ps384 | ps512 | ed25519
deriving DecidableEq, Repr

/-- `SignerConfig` from `src/signer.rs` (`certs` is the concatenated PEM
chain as raw bytes). -/
structure SignerConfig where
  alg : String
  certs : List Nat
  time_authority_url : Option String
  use_ocsp : Bool
deriving DecidableEq, Repr

/-- `SignerInternalConfig` from `src/signer.rs`. -/
structure SignerInternalConfig where
  alg : SigningAlg
  certs : List (List Nat)
  reserve_size : Nat
  time_authority_url : Option String
  ocsp_val : Option (List Nat)
deriving DecidableEq, Repr

/-- `C2paSigner::configure` from `src/signer.rs`.  The external parsers
`SigningAlg::from_str` and `pem::parse_many` are oracle parameters (their
errors are wrapped in `BadParam` resp. `OtherError` as in the source);
`lockOk` models `RwLock::write` succeeding.  On success the settings are
rewritten with `reserve_size = config.certs.len() + 20000`. -/
def C2paSigner.configure (from_str : String → Except String SigningAlg)
    (parse_many : List Nat → Except String (List (List Nat)))
    (lockOk : Bool) (config : SignerConfig)
    (settings : SignerInternalConfig) :
    Except C2paError SignerInternalConfig :=
  if lockOk then
    match from_str config.alg with
    | .error e => .error (.badParam e)
    | .ok alg =>
      match parse_many config.certs with
      | .error e => .error (.otherError e)
      | .ok pems =>
        .ok { settings with
              alg := alg
              certs := pems
              reserve_size := config.certs.length + 20000
              time_authority_url := config.time_authority_url
              ocsp_val := none }
  else .error (.badParam "RwLock")

/-- `C2paSigner::reserve_size` from `src/signer.rs`: reads
`settings.reserve_size` under the read lock (`u64 as usize`, lossless on
the 64-bit targets the crate builds for). -/
def C2paSigner.reserve_size (settings : SignerInternalConfig) : Nat :=
  settings.reserve_size

/-- What happens to a heap box that an entry point reclaims with
`Box::from_raw`: it is either re-leaked with `Box::into_raw` before the
function returns (the caller's handle stays valid) or dropped when the
owning `Box` goes out of scope (the object is freed, the handle dangles). -/
inductive HandleFate where
  | restored
  | dropped
deriving DecidableEq, Repr

/-- Result of a `c_int`-returning builder entry point: return code, fate of
the builder box, resulting error slot. -/
structure MutatorOutcome where
  ret : Int
  builder : HandleFate
  slot : ErrorSlot
deriving DecidableEq, Repr

/-- `c2pa_builder_add_resource` (`src/c_api.rs`).  The builder box is taken
with `Box::from_raw` first.  If `uri` is null, `from_cstr_null_check_int!`
sets a `NullParameter("uri")` error and returns `-1` — the box goes out of
scope, so it is dropped.  Otherwise `builder.add_resource` runs (oracle
`engine`); on `Ok` the box is re-leaked with `Box::into_raw` and `0`
returned; on `Err` the error is recorded and `-1` returned with no
`Box::into_raw`, so the box is dropped. -/
def c2pa_builder_add_resource (uriNull : Bool)
    (engine : Except C2paError Unit) (slot : ErrorSlot) : MutatorOutcome :=
  if uriNull then
    { ret := -1, builder := .dropped
      slot := (Error.nullParameter "uri").set_last slot }
  else
    match engine with
    | .ok _ => { ret := 0, builder := .restored, slot := slot }
    | .error err =>
      { ret := -1, builder := .dropped, slot := (Error.sdk err).set_last slot }

/-- `c2pa_builder_add_ingredient` (`src/c_api.rs`): same shape as
`add_resource` with two null-checked strings (`ingredient_json`, then
`format`), each early `-1` return dropping the already-reclaimed builder
box; the `Err` arm likewise lacks `Box::into_raw`. -/
def c2pa_builder_add_ingredient (ingredientJsonNull formatNull : Bool)
    (engine : Except C2paError Unit) (slot : ErrorSlot) : MutatorOutcome :=
  if ingredientJsonNull then
    { ret := -1, builder := .dropped
      slot := (Error.nullParameter "ingredient_json").set_last slot }
  else if formatNull then
    { ret := -1, builder := .dropped
      slot := (Error.nullParameter "format").set_last slot }
  else
    match engine with
    | .ok _ => { ret := 0, builder := .restored, slot := slot }
    | .error err =>
      { ret := -1, builder := .dropped, slot := (Error.sdk err).set_last slot }

/-- `c2pa_builder_to_archive` (`src/c_api.rs`): no string parameters; on
`Ok` the builder box is re-leaked and `0` returned, on `Err` the box is
dropped and `-1` returned. -/
def c2pa_builder_to_archive (engine : Except C2paError Unit)
    (slot : ErrorSlot) : MutatorOutcome :=
  match engine with
  | .ok _ => { ret := 0, builder := .restored, slot := slot }
  | .error err =>
    { ret := -1, builder := .dropped, slot := (Error.sdk err).set_last slot }

/-- `c2pa_builder_sign` (`src/c_api.rs`).  The builder box is taken first;
a null `format` drops it via the macro's early `-1` return.  Otherwise
`builder.sign` runs (oracle `engine`, yielding the c2pa data bytes on
success) and then — before the result is even inspected — both the signer
box and the builder box are re-leaked with `Box::into_raw`.  Success
returns `c2pa_data.len() as c_int`, failure records the error and returns
`-1`; in both cases the builder was already restored. -/
def c2pa_builder_sign (formatNull : Bool)
    (engine : Except C2paError (List Nat)) (slot : ErrorSlot) :
    MutatorOutcome :=
  if formatNull then
    { ret := -1, builder := .dropped
      slot := (Error.nullParameter "format").set_last slot }
  else
    match engine with
    | .ok c2pa_data =>
      { ret := i32_of_nat c2pa_data.length, builder := .restored, slot := slot }
    | .error err =>
      { ret := -1, builder := .restored, slot := (Error.sdk err).set_last slot }

/-- `c2pa_reader_json` (`src/c_api.rs`): the reader box is taken with
`Box::from_raw`, `reader.json()` (oracle result `json`) computed, the box
re-leaked with `Box::into_raw`, and `to_c_string(json)` returned. -/
def c2pa_reader_json (json : String) : Option String × HandleFate :=
  (to_c_string json, .restored)

/-- Result of `c2pa_reader_resource_to_stream`: return code, fate of the
reader box, resulting error slot. -/
structure ReaderStreamOutcome where
  ret : Int
  reader : HandleFate
  slot : ErrorSlot
deriving DecidableEq, Repr

/-- `c2pa_reader_resource_to_stream` (`src/c_api.rs`).  The reader box is
taken first; a null `uri` triggers the macro's early `-1` return, dropping
the box.  Otherwise `reader.resource_to_stream` runs (oracle `engine`,
yielding the written length on success), the box is re-leaked before the
match, and the result is translated to `len as c_int` or `-1`. -/
def c2pa_reader_resource_to_stream (uriNull : Bool)
    (engine : Except C2paError Nat) (slot : ErrorSlot) :
    ReaderStreamOutcome :=
  if uriNull then
    { ret := -1, reader := .dropped
      slot := (Error.nullParameter "uri").set_last slot }
  else
    match engine with
    | .ok len => { ret := i32_of_nat len, reader := .restored, slot := slot }
    | .error err =>
      { ret := -1, reader := .restored, slot := (Error.sdk err).set_last slot }

/-- `c2pa_read_file` (`src/c_api.rs`): `path` goes through
`from_cstr_null_check!` (null ⇒ `NullParameter("path")`, return null),
`data_dir` through `from_cstr_option!` (null ⇒ `None`, no failure); the
engine call `read_file(&path, data_dir)` is an oracle over both. -/
def c2pa_read_file (path dataDir : Option String)
    (read_file : String → Option String → Except Error String)
    (slot : ErrorSlot) : Option String × ErrorSlot :=
  match path with
  | none => (none, (Error.nullParameter "path").set_last slot)
  | some p =>
    match read_file p dataDir with
    | .ok json => (to_c_string json, slot)
    | .error e => (none, e.set_last slot)

/-- `c2pa_read_ingredient_file` (`src/c_api.rs`): both `path` and
`data_dir` go through `from_cstr_null_check!`, so a null `data_dir`
produces `NullParameter("data_dir")` and a null return before the engine
is reached. -/
def c2pa_read_ingredient_file (path dataDir : Option String)
    (read_ingredient_file : String → String → Except Error String)
    (slot : ErrorSlot) : Option String × ErrorSlot :=
  match path with
  | none => (none, (Error.nullParameter "path").set_last slot)
  | some p =>
    match dataDir with
    | none => (none, (Error.nullParameter "data_dir").set_last slot)
    | some d =>
      match read_ingredient_file p d with
      | .ok json => (to_c_string json, slot)
      | .error e => (none, e.set_last slot)

/-- Undefined behaviour a free entry point could trigger if it handed a
pointer to `Box::from_raw`/`CString::from_raw` that does not refer to a
live allocation. -/
inductive UndefinedBehavior where
  | invalidFree
deriving DecidableEq, Repr

/-- The heap of live allocations of one handle kind, as the list of their
addresses. -/
abbrev Heap := List Nat

/-- `drop(Box::from_raw(p))` / `drop(CString::from_raw(p))` on a non-null
pointer: defined only when `p` is a live allocation, which it then frees;
anything else is undefined behaviour. -/
def rust_drop_raw (addr : Nat) (heap : Heap) : Except UndefinedBehavior Heap :=
  if addr ∈ heap then .ok (heap.erase addr) else .error .invalidFree

/-- `c2pa_string_free` (`src/c_api.rs`): `if !s.is_null() { drop(...) }` —
a null pointer (`none`) skips the drop entirely. -/
def c2pa_string_free (s : Option Nat) (heap : Heap) :
    Except UndefinedBehavior Heap :=
  match s with
  | none => .ok heap
  | some addr => rust_drop_raw addr heap

/-- `c2pa_release_string` (`src/c_api.rs`): delegates to
`c2pa_string_free`. -/
def c2pa_release_string (s : Option Nat) (heap : Heap) :
    Except UndefinedBehavior Heap :=
  c2pa_string_free s heap

/-- `c2pa_reader_free` (`src/c_api.rs`): null-checked drop of the reader
box. -/
def c2pa_reader_free (reader_ptr : Option Nat) (heap : Heap) :
    Except UndefinedBehavior Heap :=
  match reader_ptr with
  | none => .ok heap
  | some addr => rust_drop_raw addr heap

/-- `c2pa_builder_free` (`src/c_api.rs`): null-checked drop of the builder
box. -/
def c2pa_builder_free (builder_ptr : Option Nat) (heap : Heap) :
    Except UndefinedBehavior Heap :=
  match builder_ptr with
  | none => .ok heap
  | some addr => rust_drop_raw addr heap

/-- `c2pa_manifest_free` (`src/c_api.rs`): null-checked drop of the
manifest bytes. -/
def c2pa_manifest_free (manifest_data_ptr : Option Nat) (heap : Heap) :
    Except UndefinedBehavior Heap :=
  match manifest_data_ptr with
  | none => .ok heap
  | some addr => rust_drop_raw addr heap

/-- `c2pa_signer_free` (`src/c_api.rs`): null-checked drop of the signer
box. -/
def c2pa_signer_free (signer_ptr : Option Nat) (heap : Heap) :
    Except UndefinedBehavior Heap :=
  match signer_ptr with
  | none => .ok heap
  | some addr => rust_drop_raw addr heap

/-- `c2pa_release_stream` (`src/c_stream.rs`): null-checked drop of the
stream box. -/
def c2pa_release_stream (stream : Option Nat) (heap : Heap) :
    Except UndefinedBehavior Heap :=
  match stream with
  | none => .ok heap
  | some addr => rust_drop_raw addr heap

/-- Claim C1, the code evaluated at its failing inputs: contrary to the
claim that a failing mutator restores the builder handle, on every `-1`
path of `c2pa_builder_add_resource`, `c2pa_builder_add_ingredient` and
`c2pa_builder_to_archive` (null required string, or engine error) the
builder box taken with `Box::from_raw` is never re-leaked and is dropped,
freeing the builder; only the success path restores it. -/
theorem c1_mutator_failure_drops_builder :
    (c2pa_builder_add_resource true (.ok ()) none).ret = -1 ∧
    (c2pa_builder_add_resource true (.ok ()) none).builder = .dropped ∧
    (c2pa_builder_add_resource false (.error (.other "engine failure")) none).ret = -1 ∧
    (c2pa_builder_add_resource false (.error (.other "engine failure")) none).builder
        = .dropped ∧
    (c2pa_builder_add_ingredient false false (.error (.other "engine failure")) none).builder
        = .dropped ∧
    (c2pa_builder_add_ingredient true false (.ok ()) none).builder = .dropped ∧
    (c2pa_builder_to_archive (.error (.other "engine failure")) none).ret = -1 ∧
    (c2pa_builder_to_archive (.error (.other "engine failure")) none).builder = .dropped ∧
    (c2pa_builder_add_resource false (.ok ()) none).builder = .restored :=
  ⟨rfl, rfl, rfl, rfl, rfl, rfl, rfl, rfl, rfl⟩

/-- Claim C2, counterexample: at the concrete input (non-null format,
engine success — and likewise engine failure) `c2pa_builder_sign` restores
the builder box with `Box::into_raw`, refuting the claim that the builder
handle is never restored and is destroyed by any call to sign. -/
theorem c2_sign_counterexample :
    (c2pa_builder_sign false (.ok [1, 2, 3]) none).builder = .restored ∧
    (c2pa_builder_sign false (.error (.other "signing failed")) none).builder
        = .restored ∧
    (c2pa_builder_sign false (.ok [1, 2, 3]) none).builder ≠ .dropped :=
  ⟨rfl, rfl, by decide⟩

/-- Claim C2 (amended): `c2pa_builder_sign` is not a consuming operation:
whenever `format` is non-null it re-leaks the builder box before returning,
on engine success and failure alike, so the handle stays valid; only a null
`format` makes the early `-1` return drop the builder box. -/
theorem c2_sign_builder_fate (engine : Except C2paError (List Nat))
    (slot : ErrorSlot) :
    (c2pa_builder_sign false engine slot).builder = .restored ∧
    (c2pa_builder_sign true engine slot).builder = .dropped := by
  cases engine <;> exact ⟨rfl, rfl⟩

/-- Claim C3, the code evaluated at its failing input: contrary to the
claim that reader entry points never consume the reader handle,
`c2pa_reader_resource_to_stream` with a null `uri` drops the reader box
taken with `Box::from_raw` when the macro's early `-1` return skips
`Box::into_raw`; the engine-failure path and `c2pa_reader_json` do
restore it. -/
theorem c3_null_uri_drops_reader :
    (c2pa_reader_resource_to_stream true (.ok 0) none).reader = .dropped ∧
    (c2pa_reader_resource_to_stream true (.ok 0) none).ret = -1 ∧
    (c2pa_reader_resource_to_stream true (.ok 0) none).slot
        = some (.nullParameter "uri") ∧
    (c2pa_reader_json "manifest json").2 = .restored ∧
    (c2pa_reader_resource_to_stream false (.error (.other "engine failure")) none).reader
        = .restored :=
  ⟨rfl, rfl, rfl, rfl, rfl⟩

/-- Claim C4: `CStream::read` fails with an I/O error exactly when the read
callback returns a negative value and returns `Ok(n)` for a non-negative
return `n`; `write` and `flush` are symmetric; the returned count is not
re-validated against the buffer length (witness: a count larger than the
buffer is passed through). -/
theorem c4_cstream_passthrough (reader : Nat → Int) (writer : List Nat → Int)
    (flusher : Unit → Int) (bufLen : Nat) (buf : List Nat) :
    (reader bufLen < 0 → CStream.read reader bufLen = .error .lastOsError) ∧
    (0 ≤ reader bufLen → CStream.read reader bufLen = .ok (reader bufLen).toNat) ∧
    (writer buf < 0 → CStream.write writer buf = .error .lastOsError) ∧
    (0 ≤ writer buf → CStream.write writer buf = .ok (writer buf).toNat) ∧
    (flusher () < 0 → CStream.flush flusher = .error .lastOsError) ∧
    (0 ≤ flusher () → CStream.flush flusher = .ok ()) := by
  refine ⟨fun h => ?_, fun h => ?_, fun h => ?_, fun h => ?_, fun h => ?_,
    fun h => ?_⟩
  · simp [CStream.read, h]
  · simp [CStream.read, not_lt.mpr h]
  · simp [CStream.write, h]
  · simp [CStream.write, not_lt.mpr h]
  · simp [CStream.flush, h]
  · simp [CStream.flush, not_lt.mpr h]

/-- Witness for claim C4 at concrete inputs; note the read count 10 exceeds
the buffer length 3 and is still returned unchanged. -/
theorem c4_cstream_passthrough_witness :
    CStream.read (fun _ => 10) 3 = .ok 10 ∧
    CStream.write (fun _ => -2) [1] = .error .lastOsError ∧
    CStream.flush (fun _ => 0) = .ok () :=
  ⟨(c4_cstream_passthrough (fun _ => 10) (fun _ => -2) (fun _ => 0) 3 [1]).2.1
      (by decide),
   (c4_cstream_passthrough (fun _ => 10) (fun _ => -2) (fun _ => 0) 3 [1]).2.2.1
      (by decide),
   (c4_cstream_passthrough (fun _ => 10) (fun _ => -2) (fun _ => 0) 3 [1]).2.2.2.2.2
      (by decide)⟩

/-- Claim C5: for both signer shapes a negative callback return yields the
one fixed `CoseSignature` engine error, and a non-negative return `n`
(within the buffer, per the foreign contract) yields a signature that is
exactly the first `n` bytes of the output buffer; the stateless shape
(`c2pa_signer_create`) invokes the callback with capacity
`data.len() * 2`, the configured shape (`CSigner`) with the fixed capacity
100000. -/
theorem c5_signing_callback_semantics (cb : List Nat → Nat → Int × List Nat)
    (data : List Nat) (n : Int) (buf : List Nat) :
    (cb data 100000 = (n, buf) → n < 0 →
        CSigner.sign cb data = .error .coseSignature) ∧
    (cb data 100000 = (n, buf) → 0 ≤ n → n.toNat ≤ buf.length →
        CSigner.sign cb data = .ok (buf.take n.toNat) ∧
          (buf.take n.toNat).length = n.toNat) ∧
    (cb data (data.length * 2) = (n, buf) → n < 0 →
        c2pa_signer_create_callback cb data = .error .coseSignature) ∧
    (cb data (data.length * 2) = (n, buf) → 0 ≤ n → n.toNat ≤ buf.length →
        c2pa_signer_create_callback cb data = .ok (buf.take n.toNat) ∧
          (buf.take n.toNat).length = n.toNat) := by
  refine ⟨fun hcb hn => ?_, fun hcb hn hle => ⟨?_, ?_⟩, fun hcb hn => ?_,
    fun hcb hn hle => ⟨?_, ?_⟩⟩
  · simp [CSigner.sign, hcb, hn]
  · simp [CSigner.sign, hcb, not_lt.mpr hn]
  · simp [List.length_take, Nat.min_eq_left hle]
  · simp [c2pa_signer_create_callback, hcb, hn]
  · simp [c2pa_signer_create_callback, hcb, not_lt.mpr hn]
  · simp [List.length_take, Nat.min_eq_left hle]

/-- Witness for claim C5: a callback returning status 3 with the buffer
filled with 7s, on two bytes of input (stateless capacity 2 × 2 = 4). -/
theorem c5_signing_callback_witness :
    CSigner.sign (fun _ cap => ((3 : Int), List.replicate cap 7)) [1, 2]
        = .ok ((List.replicate 100000 7).take (3 : Int).toNat) ∧
    c2pa_signer_create_callback (fun _ cap => ((3 : Int), List.replicate cap 7))
        [1, 2] = .ok ((List.replicate 4 7).take (3 : Int).toNat) :=
  ⟨((c5_signing_callback_semantics (fun _ cap => ((3 : Int), List.replicate cap 7))
      [1, 2] 3 (List.replicate 100000 7)).2.1 rfl (by decide)
      (by rw [List.length_replicate]; decide)).1,
   ((c5_signing_callback_semantics (fun _ cap => ((3 : Int), List.replicate cap 7))
      [1, 2] 3 (List.replicate 4 7)).2.2.2 rfl (by decide)
      (by rw [List.length_replicate]; decide)).1⟩

/-- Claim C6: whenever `C2paSigner::configure(config)` succeeds, the stored
(and subsequently returned) `reserve_size` is the byte length of
`config.certs` plus 20000. -/
theorem c6_reserve_size_after_configure
    (from_str : String → Except String SigningAlg)
    (parse_many : List Nat → Except String (List (List Nat)))
    (lockOk : Bool) (config : SignerConfig)
    (settings settings' : SignerInternalConfig)
    (h : C2paSigner.configure from_str parse_many lockOk config settings
          = .ok settings') :
    C2paSigner.reserve_size settings' = config.certs.length + 20000 := by
  unfold C2paSigner.configure at h
  cases lockOk with
  | false => simp at h
  | true =>
    rw [if_pos rfl] at h
    cases hfs : from_str config.alg with
    | error e => rw [hfs] at h; simp at h
    | ok alg =>
      rw [hfs] at h
      cases hpm : parse_many config.certs with
      | error e => rw [hpm] at h; simp at h
      | ok pems =>
        rw [hpm] at h
        cases h
        rfl

/-- Witness for claim C6: configuring the freshly constructed signer
(defaults from `C2paSigner::new`) with a three-byte certificate chain
yields `reserve_size = 3 + 20000 = 20003`. -/
theorem c6_reserve_size_witness :
    C2paSigner.reserve_size
        { alg := .es256, certs := [], reserve_size := 20003
          time_authority_url := none, ocsp_val := none } = 20003 := by
  have h := c6_reserve_size_after_configure (fun _ => .ok .es256)
      (fun _ => .ok []) true
      { alg := "es256", certs := [1, 2, 3], time_authority_url := none
        use_ocsp := false }
      { alg := .ps256, certs := [], reserve_size := 1024
        time_authority_url := none, ocsp_val := none }
      { alg := .es256, certs := [], reserve_size := 20003
        time_authority_url := none, ocsp_val := none }
      rfl
  simpa using h

/-- Claim C7: `CStream::seek` invokes the seek callback with mode 0 for
`Start` (offset cast `u64 as i64`), 1 for `Current`, 2 for `End`, and for
every request returns `Ok` of the callback's return value cast `as u64`,
never an error. -/
theorem c7_seek_mode_codes (seeker : Int → Int → Int) (p : Nat) (q r : Int) :
    CStream.seek seeker (.start p) = .ok (u64_of_int (seeker (i64_of_u64 p) 0)) ∧
    CStream.seek seeker (.current q) = .ok (u64_of_int (seeker q 1)) ∧
    CStream.seek seeker (.fromEnd r) = .ok (u64_of_int (seeker r 2)) ∧
    ∀ origin : SeekFrom, ∃ n : Nat, CStream.seek seeker origin = .ok n := by
  refine ⟨rfl, rfl, rfl, fun origin => ?_⟩
  cases origin <;> exact ⟨_, rfl⟩

/-- Claim C8: `c2pa_read_ingredient_file` with a null `data_dir` fails with
the null sentinel and records `NullParameter("data_dir")`, while
`c2pa_read_file` treats a null `data_dir` as `None` and does not fail for
that reason (here: succeeds whenever the engine does and the JSON has no
NUL byte). -/
theorem c8_data_dir_asymmetry (path json : String)
    (ing : String → String → Except Error String)
    (rf : String → Option String → Except Error String) (slot : ErrorSlot)
    (hok : rf path none = .ok json)
    (hnul : json.data.contains (Char.ofNat 0) = false) :
    c2pa_read_ingredient_file (some path) none ing slot
        = (none, some (Error.nullParameter "data_dir")) ∧
    c2pa_read_file (some path) none rf slot = (some json, slot) := by
  refine ⟨rfl, ?_⟩
  simp only [c2pa_read_file, hok, to_c_string]
  rw [if_neg (by simpa using hnul)]

/-- Witness for claim C8 at concrete inputs. -/
theorem c8_data_dir_asymmetry_witness :
    c2pa_read_ingredient_file (some "a.jpg") none (fun _ _ => .ok "json") none
        = (none, some (Error.nullParameter "data_dir")) ∧
    c2pa_read_file (some "a.jpg") none (fun _ _ => .ok "json") none
        = (some "json", none) :=
  c8_data_dir_asymmetry "a.jpg" "json" (fun _ _ => .ok "json")
    (fun _ _ => .ok "json") none rfl (by decide)

/-- Claim C9: `c2pa_version` and `c2pa_error` are read-only and
deterministic: neither call changes the error slot, and calling either
again immediately returns the same string; `Error::last_message` is a pure
peek of the slot. -/
theorem c9_query_idempotence (a b c d : String) (slot : ErrorSlot) :
    (c2pa_error slot).2 = slot ∧
    (c2pa_error ((c2pa_error slot).2)).1 = (c2pa_error slot).1 ∧
    (c2pa_version a b c d slot).2 = slot ∧
    (c2pa_version a b c d ((c2pa_version a b c d slot).2)).1
        = (c2pa_version a b c d slot).1 :=
  ⟨rfl, rfl, rfl, rfl⟩

/-- Claim C10: every free/release entry point is a null-safe no-op: passed
a null pointer it checks for null, frees nothing, leaves the heap
unchanged, and triggers no undefined behaviour. -/
theorem c10_free_null_is_noop (heap : Heap) :
    c2pa_string_free none heap = .ok heap ∧
    c2pa_release_string none heap = .ok heap ∧
    c2pa_reader_free none heap = .ok heap ∧
    c2pa_builder_free none heap = .ok heap ∧
    c2pa_manifest_free none heap = .ok heap ∧
    c2pa_signer_free none heap = .ok heap ∧
    c2pa_release_stream none heap = .ok heap :=
  ⟨rfl, rfl, rfl, rfl, rfl, rfl, rfl⟩

end C2paC
